import Mathlib

/-!
Shallow embedding of the compensation rule engine of `src/streamlit_app.py`
(Viventa — Histórico & Simuladores 2026).  Python ints are modelled as `ℤ`,
Python floats as `ℚ` (every literal appearing in the source is exactly
representable, and all comparisons in the source are exact), dicts of payout
lines as association lists `List (String × ℚ)`.
-/

namespace Viventa

/-! ### String helpers

Executable models of the Python string primitives the source uses
(`str.lower`, `str.startswith`, `int(str)`), stated over the string's
character list so that the kernel can evaluate them on concrete inputs.
Every string the engine compares with them is ASCII. -/

/-- ASCII lower-casing of one character (Python `str.lower` on the ASCII
range, the only range occurring in the engine's tables and line names). -/
def lower_char (c : Char) : Char :=
  if 65 ≤ c.toNat ∧ c.toNat ≤ 90 then Char.ofNat (c.toNat + 32) else c

/-- Python `s.lower()` (ASCII). -/
def lower_string (s : String) : String := ⟨s.data.map lower_char⟩

/-- Python `s.startswith(pre)`. -/
def starts_with (s pre : String) : Bool := s.data.take pre.data.length = pre.data

/-- Digit-list accumulator for `int_of_string`: consumes further digits, and
a single underscore is allowed between two digits (Python's digit-group
separator); any other character, a doubled underscore, or a trailing
underscore fails. -/
def nat_of_digits_aux : ℕ → List Char → Option ℕ
  | acc, [] => some acc
  | acc, '_' :: c :: cs =>
    if c.isDigit then nat_of_digits_aux (10 * acc + (c.toNat - 48)) cs else none
  | acc, c :: cs =>
    if c.isDigit then nat_of_digits_aux (10 * acc + (c.toNat - 48)) cs else none

/-- The digits of a Python integer literal body: it must start with a digit,
after which digits and single underscores between digits may follow. -/
def digits_value (l : List Char) : Option ℕ :=
  match l with
  | c :: cs => if c.isDigit then nat_of_digits_aux (c.toNat - 48) cs else none
  | [] => none

/-- Python `int(s)` on a token: an optional sign followed by one or more
decimal digits, with single underscores permitted between digits (Python 3's
`1_999`); anything else raises (returns `none`).  (Surrounding whitespace,
which Python would also strip but which cannot occur in the
whitespace-split tokens this is applied to, and non-ASCII digits are not
modelled.) -/
def int_of_string (s : String) : Option ℤ :=
  match s.data with
  | [] => none
  | '-' :: rest => (digits_value rest).map fun n => -(n : ℤ)
  | '+' :: rest => (digits_value rest).map fun n => (n : ℤ)
  | l => (digits_value l).map fun n => (n : ℤ)

/-- Python whitespace for `str.strip` / `str.split` (the forms that can occur
in a period label). -/
def is_space (c : Char) : Bool :=
  c == ' ' || c == '\t' || c == '\n' || c == '\r'

/-- Python `s.strip()`. -/
def py_strip (s : String) : String :=
  ⟨((s.data.dropWhile fun c => is_space c).reverse.dropWhile fun c => is_space c).reverse⟩

/-- `txt.replace("-", " ").replace("/", " ")` of source line 44. -/
def replace_seps (s : String) : String :=
  ⟨s.data.map fun c => if c = '-' ∨ c = '/' then ' ' else c⟩

/-- Accumulator for `py_split`: splits on runs of whitespace, dropping empty
tokens, as Python's argumentless `str.split()` does. -/
def split_ws_aux : List Char → List Char → List String
  | [], acc => if acc.isEmpty then [] else [⟨acc.reverse⟩]
  | c :: cs, acc =>
    if is_space c then
      if acc.isEmpty then split_ws_aux cs []
      else ⟨acc.reverse⟩ :: split_ws_aux cs []
    else split_ws_aux cs (c :: acc)

/-- Python `s.split()` (no separator argument). -/
def py_split (s : String) : List String := split_ws_aux s.data []

/-! ### Period parser (`parse_periodo_to_date`, token branch, lines 44–56) -/

/-- `MONTH_MAP_EN` of the source: English month name → month number. -/
def MONTH_MAP_EN : List (String × ℤ) :=
  [("january", 1), ("february", 2), ("march", 3), ("april", 4), ("may", 5), ("june", 6),
   ("july", 7), ("august", 8), ("september", 9), ("october", 10), ("november", 11),
   ("december", 12)]

/-- `MONTH_MAP_ES` of the source: Spanish month name → month number,
including the variant "setiembre" for September. -/
def MONTH_MAP_ES : List (String × ℤ) :=
  [("enero", 1), ("febrero", 2), ("marzo", 3), ("abril", 4), ("mayo", 5), ("junio", 6),
   ("julio", 7), ("agosto", 8), ("septiembre", 9), ("setiembre", 9), ("octubre", 10),
   ("noviembre", 11), ("diciembre", 12)]

/-- `MONTH_MAP_EN.get(mes) or MONTH_MAP_ES.get(mes)` of the source
(Python `or` falls through on `None`; all stored month numbers are nonzero,
so falsy 0 never occurs, but the value is modelled as-is). -/
def month_num (mes : String) : Option ℤ :=
  (MONTH_MAP_EN.lookup mes).orElse fun _ => MONTH_MAP_ES.lookup mes

/-- `pd.Timestamp(y, m, 1)`: the first day of month `m` of year `y`. -/
structure CalendarMonth where
  year : ℤ
  month : ℤ
  day : ℤ
deriving DecidableEq, Repr

/-- The two-token branch of `parse_periodo_to_date` (source lines 44–56):
given the month token `parts[0]` and the year token `parts[1]`, lower-case the
month token, parse the year with `int(...)` (returning NaT = `none` on
failure), look the month up in the English then the Spanish table, and if a
truthy month number results return the first day of that month. -/
def parse_periodo_tokens (mes year : String) : Option CalendarMonth :=
  match int_of_string year with
  | none => none
  | some y =>
    match month_num (lower_string mes) with
    | some m => if m ≠ 0 then some ⟨y, m, 1⟩ else none
    | none => none

/-- `parse_periodo_to_date` in full (source lines 34–56): strip the input,
try the external direct parse `pd.to_datetime(txt, errors="coerce")` first
(line 40, abstracted as the `to_datetime` parameter: `some (y, m)` stands for
a successful parse whose year and month are `y` and `m`, whereupon line 42
returns the first day of that month), and only when it fails fall back to
the two-token branch on the separator-normalized, whitespace-split text. -/
def parse_periodo_to_date (to_datetime : String → Option (ℤ × ℤ)) (s : String) :
    Option CalendarMonth :=
  let txt := py_strip s
  match to_datetime txt with
  | some (y, m) => some ⟨y, m, 1⟩
  | none =>
    match py_split (replace_seps txt) with
    | mes :: year :: _ => parse_periodo_tokens mes year
    | _ => none

/-- Modelled from the spec: the month names pandas' direct parse recognizes
in a "Month Year" string — the English month names and their usual
abbreviations.  This table belongs to the `pd.to_datetime` library call of
source line 40, whose code is not in the repository. -/
def PD_MONTHS : List (String × ℤ) :=
  [("january", 1), ("jan", 1), ("february", 2), ("feb", 2), ("march", 3), ("mar", 3),
   ("april", 4), ("apr", 4), ("may", 5), ("june", 6), ("jun", 6), ("july", 7),
   ("jul", 7), ("august", 8), ("aug", 8), ("september", 9), ("sept", 9), ("sep", 9),
   ("october", 10), ("oct", 10), ("november", 11), ("nov", 11), ("december", 12),
   ("dec", 12)]

/-- Modelled from the spec: the external `pd.to_datetime(txt, errors="coerce")`
call of source line 40 — pandas library code, absent from the repository; the
spec describes it as accepting "a directly parseable date-like string
(resolved to the first day of that date's month)".  The model covers the
family exercised here: a case-insensitive English month name or abbreviation
followed by a four-digit year parses to that month of that year; every other
input returns `none` (NaT).  Forms whose real result depends on the current
date — e.g. a month with a one- or two-digit token, which dateutil reads as
a day of the *current* year — lie outside the modelled family. -/
def pd_to_datetime_model (txt : String) : Option (ℤ × ℤ) :=
  match py_split txt with
  | [mes, year] =>
    if year.data.length = 4 ∧ year.data.all Char.isDigit = true then
      match PD_MONTHS.lookup (lower_string mes), int_of_string year with
      | some m, some y => some (y, m)
      | _, _ => none
    else none
  | _ => none

/-! ### Operations simulator (`calc_excedente`, `calc_por_unidad`, gate zeroing) -/

/-- `calc_excedente(n, minimo, valor_unidad) = max(n - minimo, 0) * valor_unidad`
(source lines 202–203). -/
def calc_excedente (n minimo valor_unidad : ℤ) : ℤ :=
  max (n - minimo) 0 * valor_unidad

/-- `calc_por_unidad(n, valor_unidad) = max(n, 0) * valor_unidad`
(source lines 205–206). -/
def calc_por_unidad (n valor_unidad : ℤ) : ℤ :=
  max n 0 * valor_unidad

/-- The gate-failure zeroing of `build_simulador_operaciones` (lines 479–486):
if the role's `gate_scope` is `"desem_only"` and the raw result holds a line
named "Comisión desembolsos", set exactly that line to 0; otherwise set every
line whose lower-cased name does not start with "fijo" to 0. -/
def zero_gated (scope : String) (res : List (String × ℚ)) : List (String × ℚ) :=
  if scope = "desem_only" ∧ res.any (fun p => p.1 = "Comisión desembolsos") then
    res.map fun p => if p.1 = "Comisión desembolsos" then (p.1, 0) else p
  else
    res.map fun p => if starts_with (lower_string p.1) "fijo" then p else (p.1, 0)

/-- Lines 478–486 of the source: the raw result is kept unchanged when the
gate passed and zeroed according to `gate_scope` when it failed. -/
def apply_gate (gate_ok : Bool) (scope : String) (res : List (String × ℚ)) :
    List (String × ℚ) :=
  if gate_ok then res else zero_gated scope res

/-- Lines 488–489 of the source: append `"Total estimado"`, the sum of every
numeric value of the (post-gate) result.  All values of every role's result
are numeric, so the `isinstance` filter keeps every line. -/
def with_total (res : List (String × ℚ)) : List (String × ℚ) :=
  res ++ [("Total estimado", (res.map Prod.snd).sum)]

/-- The evaluation pipeline of `build_simulador_operaciones` (lines 474–489),
parametric in the role's raw `calc` output, its gate outcome and its
`gate_scope` (default `"all"`). -/
def evaluate_operaciones (gate_ok : Bool) (scope : String)
    (res : List (String × ℚ)) : List (String × ℚ) :=
  with_total (apply_gate gate_ok scope res)

/-! ### Consultant tables and helpers (commercial simulator) -/

/-- The three consultant tiers — the exact key set of `CONSULTOR_SV_PCTS`,
`CONSULTOR_VARADOS_USD` and the role selectbox of the commercial simulator. -/
inductive Role where
  | aprendiz
  | emprendedor
  | experto
deriving DecidableEq, Repr

/-- `CONSULTOR_SV_PCTS` (source lines 503–520): per-tier bracket table of
`(low, high, rate)` triples over billed SV unit counts. -/
def CONSULTOR_SV_PCTS : Role → List (ℤ × ℤ × ℚ)
  | .aprendiz => [(1, 4, 0.35), (5, 9, 0.50), (10, 14, 0.60), (15, 10 ^ 9, 0.75)]
  | .emprendedor => [(1, 7, 0.45), (8, 11, 0.60), (12, 10 ^ 9, 0.75)]
  | .experto => [(1, 9, 0.50), (10, 13, 0.70), (14, 10 ^ 9, 0.75)]

/-- `CONSULTOR_VARADOS_USD` (source lines 522–526). -/
def CONSULTOR_VARADOS_USD : Role → ℚ
  | .aprendiz => 60
  | .emprendedor => 60
  | .experto => 100

/-- The `for lo, hi, pct in ...: if lo <= units <= hi: return pct` loop of
`pct_sv_por_unidades`, returning 0 when no triple matches. -/
def lookup_bracket : List (ℤ × ℤ × ℚ) → ℤ → ℚ
  | [], _ => 0
  | (lo, hi, pct) :: rest, n => if lo ≤ n ∧ n ≤ hi then pct else lookup_bracket rest n

/-- `pct_sv_por_unidades(role, units)` (source lines 560–566). -/
def pct_sv_por_unidades (role : Role) (units : ℤ) : ℚ :=
  if units ≤ 0 then 0 else lookup_bracket (CONSULTOR_SV_PCTS role) units

/-- `VIVECASA_PCT` (source lines 530–534): commission percentage per category
and per total-unit bracket key. -/
def VIVECASA_PCT (cat : String) : List (String × ℚ) :=
  if cat = "A" then [("1", 0.0052), ("2_3", 0.0055), ("4p", 0.0056)]
  else if cat = "AA" then [("1", 0.0079), ("2_3", 0.0083), ("4p", 0.0085)]
  else if cat = "AAA" then [("1", 0.0131), ("2_3", 0.0138), ("4p", 0.0141)]
  else []

/-- `VIVECASA_PCT[cat].get(bracket, 0.0)` of the source. -/
def vivecasa_pct_get (cat bracket : String) : ℚ :=
  ((VIVECASA_PCT cat).lookup bracket).getD 0

/-- `vivecasa_bracket(total_units)` (source lines 536–543). -/
def vivecasa_bracket (total_units : ℤ) : String :=
  if total_units ≤ 0 then "0"
  else if total_units = 1 then "1"
  else if total_units = 2 ∨ total_units = 3 then "2_3"
  else "4p"

/-- `anticipo_usd_por_inmueble(valor_cop)` (source lines 546–558): the
advance payment (USD) per property as a band function of the average property
value (COP).  Values at or below 0, below 90M, or in the unit gaps between the
closed integer bands, return 0. -/
def anticipo_usd_por_inmueble (valor_cop : ℚ) : ℚ :=
  if valor_cop ≤ 0 then 0
  else if 90000000 ≤ valor_cop ∧ valor_cop ≤ 270000000 then 220
  else if 270000001 ≤ valor_cop ∧ valor_cop ≤ 480000000 then 420
  else if 480000001 ≤ valor_cop ∧ valor_cop ≤ 600000000 then 650
  else if 600000001 ≤ valor_cop then 950
  else 0

/-- `bono_bolivar_usd(n_bolivar)` (source lines 568–573). -/
def bono_bolivar_usd (n_bolivar : ℤ) : ℚ :=
  if n_bolivar = 2 then 300
  else if n_bolivar ≥ 3 then 500
  else 0

/-- `bono_trimestral_consultor(role, puntos, cumple_creacion, cumple_efectivos)`
(source lines 575–600): quarterly bonus, gated by the AND of the two
eligibility flags, then a per-tier point-bracket lookup. -/
def bono_trimestral_consultor (role : Role) (puntos : ℤ)
    (cumple_creacion cumple_efectivos : Bool) : ℚ :=
  if ¬(cumple_creacion ∧ cumple_efectivos) then 0
  else
    match role with
    | .aprendiz =>
      if 250 ≤ puntos ∧ puntos ≤ 350 then 1500
      else if puntos ≥ 351 then 1800
      else 0
    | .emprendedor =>
      if 350 ≤ puntos ∧ puntos ≤ 400 then 2200
      else if puntos ≥ 401 then 2500
      else 0
    | .experto =>
      if 400 ≤ puntos ∧ puntos ≤ 490 then 2500
      else if puntos ≥ 491 then 2800
      else 0

/-! ### Consultant monthly evaluation (`calc_month`, source lines 638–702) -/

/-- The fields returned by `month_input_block` and consumed by `calc_month`.
Unit counts are Python ints (`ℤ`, collected with `min_value=0`); rates,
discounts and property values are floats (`ℚ`). -/
structure MonthInput where
  sv_units : ℤ
  tarifa_sv_usd : ℚ
  desc_sv : ℚ
  sv_asignados : ℤ
  sv_propios : ℤ
  varados_to_fact : ℤ
  vc_a : ℤ
  vc_aa : ℤ
  vc_aaa : ℤ
  v_a : ℚ
  v_aa : ℚ
  v_aaa : ℚ
  vc_bolivar : ℤ
  vc_b2b : ℤ
deriving Repr

/-- The dict returned by `calc_month` (source lines 689–702), one field per
key; `bracket_vc` is the only non-numeric entry. -/
structure MonthResult where
  pct_sv : ℚ
  tarifa_sv_neta : ℚ
  com_sv_usd : ℚ
  varados_usd : ℚ
  com_vc_cop : ℚ
  com_vc_usd : ℚ
  anticipo_vc_usd : ℚ
  saldo_vc_usd : ℚ
  bolivar_usd : ℚ
  puntos_mes : ℤ
  total_mes_usd : ℚ
  bracket_vc : String
deriving Repr

/-- `calc_month(role, x, trm)` (source lines 638–702). -/
def calc_month (role : Role) (x : MonthInput) (trm : ℚ) : MonthResult :=
  let pct_sv := pct_sv_por_unidades role x.sv_units
  let tarifa_neta := x.tarifa_sv_usd * (1 - x.desc_sv)
  let com_sv_usd := (x.sv_units : ℚ) * tarifa_neta * pct_sv
  let varados_pay_usd := (x.varados_to_fact : ℚ) * CONSULTOR_VARADOS_USD role
  let total_vc_units := x.vc_a + x.vc_aa + x.vc_aaa
  let bracket := vivecasa_bracket total_vc_units
  let pct_a := vivecasa_pct_get "A" bracket
  let pct_aa := vivecasa_pct_get "AA" bracket
  let pct_aaa := vivecasa_pct_get "AAA" bracket
  let com_vc_cop := (x.vc_a : ℚ) * x.v_a * pct_a + (x.vc_aa : ℚ) * x.v_aa * pct_aa +
    (x.vc_aaa : ℚ) * x.v_aaa * pct_aaa
  let com_vc_usd := if trm > 0 then com_vc_cop / trm else 0
  let anticipo_total_usd := (x.vc_a : ℚ) * anticipo_usd_por_inmueble x.v_a +
    (x.vc_aa : ℚ) * anticipo_usd_por_inmueble x.v_aa +
    (x.vc_aaa : ℚ) * anticipo_usd_por_inmueble x.v_aaa
  let saldo_vc_usd := max (com_vc_usd - anticipo_total_usd) 0
  let bolivar_usd := bono_bolivar_usd x.vc_bolivar
  let puntos_sv := x.sv_asignados * 10 + x.sv_propios * 15
  let b2b := min x.vc_b2b total_vc_units
  let puntos_vc := (total_vc_units - b2b) * 20 + b2b * 30
  let puntos_mes := puntos_sv + puntos_vc
  let total_mes_usd := com_sv_usd + varados_pay_usd + anticipo_total_usd +
    saldo_vc_usd + bolivar_usd
  { pct_sv := pct_sv
    tarifa_sv_neta := tarifa_neta
    com_sv_usd := com_sv_usd
    varados_usd := varados_pay_usd
    com_vc_cop := com_vc_cop
    com_vc_usd := com_vc_usd
    anticipo_vc_usd := anticipo_total_usd
    saldo_vc_usd := saldo_vc_usd
    bolivar_usd := bolivar_usd
    puntos_mes := puntos_mes
    total_mes_usd := total_mes_usd
    bracket_vc := bracket }

/-- The sum of every numeric line of a `calc_month` result other than the
total itself: every field of the returned dict except `total_mes_usd` and the
string-valued `bracket_vc`. -/
def month_other_lines_sum (r : MonthResult) : ℚ :=
  r.pct_sv + r.tarifa_sv_neta + r.com_sv_usd + r.varados_usd + r.com_vc_cop +
    r.com_vc_usd + r.anticipo_vc_usd + r.saldo_vc_usd + r.bolivar_usd +
    (r.puntos_mes : ℚ)

/-- A `month_input_block` valuation with every count and value at its widget
default (0) and the SV rate at its default 500 USD. -/
def defaultMonthInput : MonthInput :=
  { sv_units := 0, tarifa_sv_usd := 500, desc_sv := 0, sv_asignados := 0, sv_propios := 0,
    varados_to_fact := 0, vc_a := 0, vc_aa := 0, vc_aaa := 0, v_a := 0, v_aa := 0,
    v_aaa := 0, vc_bolivar := 0, vc_b2b := 0 }

/-- A `month_input_block` valuation with some Vivecasa sales: two category-A
properties at an average value of 100M COP and three SV units. -/
def sampleMonthInput : MonthInput :=
  { sv_units := 3, tarifa_sv_usd := 500, desc_sv := 0.1, sv_asignados := 2, sv_propios := 1,
    varados_to_fact := 1, vc_a := 2, vc_aa := 0, vc_aaa := 0, v_a := 100000000, v_aa := 0,
    v_aaa := 0, vc_bolivar := 2, vc_b2b := 1 }

/-- `saldo_vc_usd` is, by construction, the commission minus the advance,
floored at 0. -/
theorem calc_month_saldo (role : Role) (x : MonthInput) (trm : ℚ) :
    (calc_month role x trm).saldo_vc_usd =
      max ((calc_month role x trm).com_vc_usd - (calc_month role x trm).anticipo_vc_usd) 0 :=
  rfl

/-! ## Theorems -/

/-- C1 (counterexample): the claim that a sale whose average property value
is exactly 270,000,000 COP yields an advance of 420 is false — the code's
first band `90_000_000 <= v <= 270_000_000` is inclusive at its upper end, so
the advance at 270,000,000 is 220, not 420. -/
theorem anticipo_at_270M_not_420 :
    anticipo_usd_por_inmueble 270000000 ≠ 420 := by
  norm_num [anticipo_usd_por_inmueble]

/-- C1 (amended): a property valued at exactly 270,000,000 COP resolves to
the first band and pays an advance of 220 per property; the 420 band begins
at 270,000,001. -/
theorem anticipo_at_270M_eq_220 :
    anticipo_usd_por_inmueble 270000000 = 220 ∧
    anticipo_usd_por_inmueble 270000001 = 420 := by
  constructor <;> norm_num [anticipo_usd_por_inmueble]

/-- C8: non-integer property values in the open unit gaps between the bands
— 270,000,000.5, 480,000,000.5 and 600,000,000.5 — match no band and pay an
advance of 0 although they lie strictly above the lowest band floor
90,000,000; in particular the band function is not monotone over real-valued
inputs (270,000,000 pays 220 while the larger 270,000,000.5 pays 0). -/
theorem anticipo_gap_values_zero :
    anticipo_usd_por_inmueble (540000001 / 2) = 0 ∧
    anticipo_usd_por_inmueble (960000001 / 2) = 0 ∧
    anticipo_usd_por_inmueble (1200000001 / 2) = 0 ∧
    (90000000 : ℚ) < 540000001 / 2 ∧
    (270000000 : ℚ) < 540000001 / 2 ∧
    anticipo_usd_por_inmueble (540000001 / 2) < anticipo_usd_por_inmueble 270000000 := by
  refine ⟨?_, ?_, ?_, by norm_num, by norm_num, ?_⟩ <;>
    norm_num [anticipo_usd_por_inmueble]

/-- C10: the Bolívar sub-category bonus is 0 for a count of exactly 1 (the
case the spec's enumeration leaves unstated) and, more generally, 0 for every
count at most 1, 300 for exactly 2, and 500 for every count at least 3. -/
theorem bono_bolivar_cases :
    bono_bolivar_usd 1 = 0 ∧
    (∀ n : ℤ, n ≤ 1 → bono_bolivar_usd n = 0) ∧
    bono_bolivar_usd 2 = 300 ∧
    (∀ n : ℤ, 3 ≤ n → bono_bolivar_usd n = 500) := by
  refine ⟨by norm_num [bono_bolivar_usd], fun n hn => ?_, by norm_num [bono_bolivar_usd],
    fun n hn => ?_⟩ <;>
    · simp only [bono_bolivar_usd]
      split_ifs <;> first | (exfalso; omega) | norm_num

/-- C10 (witness): the general clauses of `bono_bolivar_cases` evaluated at
the concrete counts 0 and 5. -/
theorem bono_bolivar_cases_witness :
    bono_bolivar_usd 0 = 0 ∧ bono_bolivar_usd 5 = 500 :=
  ⟨bono_bolivar_cases.2.1 0 (by norm_num), bono_bolivar_cases.2.2.2 5 (by norm_num)⟩

/-- C5: for every minimum-free-units allowance `minimo`, unit rate
`valor_unidad` and unit count `n ≥ 0`, the commission equals
`max (n − minimo) 0 * valor_unidad`; it is 0 whenever `n ≤ minimo`, and past
the minimum each additional unit adds exactly `valor_unidad`. -/
theorem calc_excedente_spec :
    ∀ n minimo valor_unidad : ℤ, 0 ≤ n →
      calc_excedente n minimo valor_unidad = max (n - minimo) 0 * valor_unidad ∧
      (n ≤ minimo → calc_excedente n minimo valor_unidad = 0) ∧
      (minimo ≤ n → calc_excedente (n + 1) minimo valor_unidad -
        calc_excedente n minimo valor_unidad = valor_unidad) := by
  intro n minimo valor_unidad _
  refine ⟨rfl, fun h => ?_, fun h => ?_⟩
  · rw [calc_excedente, max_eq_right (by omega), zero_mul]
  · rw [calc_excedente, calc_excedente, max_eq_left (by omega), max_eq_left (by omega)]
    ring

/-- C5 (witness): `calc_excedente_spec` at `n = 5`, `minimo = 3`,
`valor_unidad = 7`. -/
theorem calc_excedente_spec_witness :
    (0 : ℤ) ≤ 5 ∧
    (calc_excedente 5 3 7 = max (5 - 3) 0 * 7 ∧
      ((5 : ℤ) ≤ 3 → calc_excedente 5 3 7 = 0) ∧
      ((3 : ℤ) ≤ 5 → calc_excedente (5 + 1) 3 7 - calc_excedente 5 3 7 = 7)) :=
  ⟨by norm_num, calc_excedente_spec 5 3 7 (by norm_num)⟩

/-- C4: the quarterly bonus is 0 whenever either eligibility flag is false,
for every tier and every point total; with both flags true the Apprentice
tier pays 0 below 250 points, 1500 on [250, 350] and 1800 from 351 up — in
particular 351 ↦ 1800, 350 ↦ 1500 and 249 ↦ 0. -/
theorem bono_trimestral_spec :
    (∀ (role : Role) (p : ℤ) (e : Bool),
      bono_trimestral_consultor role p false e = 0 ∧
      bono_trimestral_consultor role p e false = 0) ∧
    (∀ p : ℤ, bono_trimestral_consultor .aprendiz p true true =
      if p < 250 then 0 else if p ≤ 350 then 1500 else 1800) ∧
    bono_trimestral_consultor .aprendiz 351 true true = 1800 ∧
    bono_trimestral_consultor .aprendiz 350 true true = 1500 ∧
    bono_trimestral_consultor .aprendiz 249 true true = 0 := by
  refine ⟨fun role p e => ⟨by simp [bono_trimestral_consultor],
    by simp [bono_trimestral_consultor]⟩, fun p => ?_,
    by norm_num [bono_trimestral_consultor], by norm_num [bono_trimestral_consultor],
    by norm_num [bono_trimestral_consultor]⟩
  simp only [bono_trimestral_consultor]
  norm_num
  split_ifs <;> first | (exfalso; omega) | norm_num

/-- C2: when the gate fails, each payout line of the result is transformed
positionally as follows — under `desem_only` scope with a "Comisión
desembolsos" line present, exactly that line becomes 0 and every other line
(the "fijo…" ones included) keeps its raw value; otherwise every line whose
lower-cased name does not start with "fijo" becomes 0 and every "fijo…" line
keeps its raw value. -/
theorem gate_zeroing_frame :
    ∀ (scope : String) (res : List (String × ℚ)) (i : ℕ) (k : String) (v : ℚ),
      res[i]? = some (k, v) →
      ((scope = "desem_only" ∧ res.any (fun p => p.1 = "Comisión desembolsos") = true) →
        (apply_gate false scope res)[i]? =
          some (k, if k = "Comisión desembolsos" then 0 else v)) ∧
      (¬(scope = "desem_only" ∧ res.any (fun p => p.1 = "Comisión desembolsos") = true) →
        (apply_gate false scope res)[i]? =
          some (k, if starts_with (lower_string k) "fijo" then v else 0)) := by
  intro scope res i k v h
  refine ⟨fun hc => ?_, fun hc => ?_⟩
  · simp only [apply_gate, Bool.false_eq_true, if_false, zero_gated, if_pos hc,
      List.getElem?_map, h]
    by_cases hk : k = "Comisión desembolsos" <;> simp [hk]
  · simp only [apply_gate, Bool.false_eq_true, if_false, zero_gated, if_neg hc,
      List.getElem?_map, h]
    by_cases hk : starts_with (lower_string k) "fijo" = true <;> simp [hk]

/-- C2 (witness): `gate_zeroing_frame` on a concrete failed-gate result with
scope `"all"`: the "Fijo mensual" line survives and the commission line is
zeroed. -/
theorem gate_zeroing_frame_witness :
    ¬("all" = "desem_only" ∧
        ([("Fijo mensual", (3 : ℚ)), ("Comisión mensual", 5)].any
          fun p => p.1 = "Comisión desembolsos") = true) ∧
    (apply_gate false "all" [("Fijo mensual", (3 : ℚ)), ("Comisión mensual", 5)])[1]? =
      some ("Comisión mensual",
        if starts_with (lower_string "Comisión mensual") "fijo" then 5 else 0) :=
  ⟨by decide,
    (gate_zeroing_frame "all" [("Fijo mensual", (3 : ℚ)), ("Comisión mensual", 5)] 1
      "Comisión mensual" 5 rfl).2 (by decide)⟩

/-- C3 (counterexample): the claim fails for `calc_month` — at the default
consultant inputs (SV rate 500, everything else 0) the monthly total is 0,
but the sum of all the other numeric lines of the result is 500 (the
diagnostic line `tarifa_sv_neta` is a numeric line of the returned dict yet
is not part of the total). -/
theorem calc_month_total_not_sum_of_all_lines :
    (calc_month .aprendiz defaultMonthInput 4000).total_mes_usd ≠
      month_other_lines_sum (calc_month .aprendiz defaultMonthInput 4000) := by
  norm_num [calc_month, month_other_lines_sum, defaultMonthInput, pct_sv_por_unidades,
    lookup_bracket, CONSULTOR_SV_PCTS, CONSULTOR_VARADOS_USD, vivecasa_bracket,
    vivecasa_pct_get, VIVECASA_PCT, anticipo_usd_por_inmueble, bono_bolivar_usd]

/-- C3 (amended): the operations evaluator always appends "Total estimado"
as the last line of the result and its value is the exact sum of all the
other lines post-gating; the consultant monthly total `total_mes_usd` equals
the exact sum of the five payout lines (SV commission, stranded-unit pay,
advance, balance, Bolívar bonus) — the diagnostic numeric lines of the
monthly dict (percentage, net rate, COP/USD commission echoes, points) are
not part of it. -/
theorem totals_are_sums :
    (∀ (gate_ok : Bool) (scope : String) (res : List (String × ℚ)),
      (evaluate_operaciones gate_ok scope res).getLast? =
        some ("Total estimado",
          ((evaluate_operaciones gate_ok scope res).dropLast.map Prod.snd).sum)) ∧
    (∀ (role : Role) (x : MonthInput) (trm : ℚ),
      (calc_month role x trm).total_mes_usd =
        (calc_month role x trm).com_sv_usd + (calc_month role x trm).varados_usd +
        (calc_month role x trm).anticipo_vc_usd + (calc_month role x trm).saldo_vc_usd +
        (calc_month role x trm).bolivar_usd) := by
  constructor
  · intro gate_ok scope res
    simp [evaluate_operaciones, with_total]
  · intro role x trm
    rfl

/-- C9: for every consultant input and positive exchange rate, the Vivecasa
advance plus the balance due equals the maximum of the USD-converted
commission and the total advance; in particular the monthly total's Vivecasa
contribution is never below the full advance. -/
theorem vivecasa_advance_balance_max :
    ∀ (role : Role) (x : MonthInput) (trm : ℚ), 0 < trm →
      (calc_month role x trm).anticipo_vc_usd + (calc_month role x trm).saldo_vc_usd =
        max (calc_month role x trm).com_vc_usd (calc_month role x trm).anticipo_vc_usd ∧
      (calc_month role x trm).anticipo_vc_usd ≤
        (calc_month role x trm).anticipo_vc_usd + (calc_month role x trm).saldo_vc_usd := by
  intro role x trm _
  rw [calc_month_saldo]
  constructor
  · rcases le_total (calc_month role x trm).com_vc_usd
        (calc_month role x trm).anticipo_vc_usd with hle | hle
    · rw [max_eq_right (by linarith :
          (calc_month role x trm).com_vc_usd - (calc_month role x trm).anticipo_vc_usd ≤ 0),
        add_zero, max_eq_right hle]
    · rw [max_eq_left (by linarith :
          (0 : ℚ) ≤ (calc_month role x trm).com_vc_usd - (calc_month role x trm).anticipo_vc_usd),
        max_eq_left hle]
      ring
  · exact le_add_of_nonneg_right (le_max_right _ _)

/-- C9 (witness): `vivecasa_advance_balance_max` at the sample input (two
category-A properties at 100M COP) with exchange rate 4000. -/
theorem vivecasa_advance_balance_max_witness :
    (calc_month .aprendiz sampleMonthInput 4000).anticipo_vc_usd +
        (calc_month .aprendiz sampleMonthInput 4000).saldo_vc_usd =
      max (calc_month .aprendiz sampleMonthInput 4000).com_vc_usd
        (calc_month .aprendiz sampleMonthInput 4000).anticipo_vc_usd ∧
    (calc_month .aprendiz sampleMonthInput 4000).anticipo_vc_usd ≤
      (calc_month .aprendiz sampleMonthInput 4000).anticipo_vc_usd +
        (calc_month .aprendiz sampleMonthInput 4000).saldo_vc_usd :=
  vivecasa_advance_balance_max .aprendiz sampleMonthInput 4000 (by norm_num)

/-- Closed form of the Apprentice bracket lookup. -/
theorem pct_aprendiz_eq (n : ℤ) :
    pct_sv_por_unidades .aprendiz n =
      if n ≤ 0 then 0 else if n ≤ 4 then 0.35 else if n ≤ 9 then 0.5
      else if n ≤ 14 then 0.6 else if n ≤ 10 ^ 9 then 0.75 else 0 := by
  simp only [pct_sv_por_unidades, CONSULTOR_SV_PCTS, lookup_bracket]
  split_ifs <;> first | (exfalso; omega) | norm_num

/-- Closed form of the Entrepreneur bracket lookup. -/
theorem pct_emprendedor_eq (n : ℤ) :
    pct_sv_por_unidades .emprendedor n =
      if n ≤ 0 then 0 else if n ≤ 7 then 0.45 else if n ≤ 11 then 0.6
      else if n ≤ 10 ^ 9 then 0.75 else 0 := by
  simp only [pct_sv_por_unidades, CONSULTOR_SV_PCTS, lookup_bracket]
  split_ifs <;> first | (exfalso; omega) | norm_num

/-- Closed form of the Expert bracket lookup. -/
theorem pct_experto_eq (n : ℤ) :
    pct_sv_por_unidades .experto n =
      if n ≤ 0 then 0 else if n ≤ 9 then 0.5 else if n ≤ 13 then 0.7
      else if n ≤ 10 ^ 9 then 0.75 else 0 := by
  simp only [pct_sv_por_unidades, CONSULTOR_SV_PCTS, lookup_bracket]
  split_ifs <;> first | (exfalso; omega) | norm_num

/-- C6 (counterexample): the bracket lookup is not monotone over all unit
counts — each tier's last range ends at the sentinel `10 ^ 9`, and a count
one past it matches no range and falls back to 0, below the 0.75 rate paid
at `10 ^ 9` itself. -/
theorem pct_sv_monotonicity_fails :
    (10 ^ 9 : ℤ) ≤ 10 ^ 9 + 1 ∧
    pct_sv_por_unidades .aprendiz (10 ^ 9) = 0.75 ∧
    pct_sv_por_unidades .aprendiz (10 ^ 9 + 1) = 0 ∧
    ¬(pct_sv_por_unidades .aprendiz (10 ^ 9) ≤ pct_sv_por_unidades .aprendiz (10 ^ 9 + 1)) := by
  rw [pct_aprendiz_eq, pct_aprendiz_eq]
  norm_num

/-- C6 (amended): within each tier's table — that is, up to the sentinel
upper bound `10 ^ 9` of the last range — the bracket lookup is monotone
non-decreasing in the unit count, for all three consultant tiers (counts at
most 0 return 0). -/
theorem pct_sv_monotone_within_table :
    ∀ (role : Role) (m n : ℤ), m ≤ n → n ≤ 10 ^ 9 →
      pct_sv_por_unidades role m ≤ pct_sv_por_unidades role n := by
  intro role m n hmn hn
  cases role
  · rw [pct_aprendiz_eq, pct_aprendiz_eq]
    split_ifs <;> first | (exfalso; omega) | norm_num
  · rw [pct_emprendedor_eq, pct_emprendedor_eq]
    split_ifs <;> first | (exfalso; omega) | norm_num
  · rw [pct_experto_eq, pct_experto_eq]
    split_ifs <;> first | (exfalso; omega) | norm_num

/-- C6 (witness): `pct_sv_monotone_within_table` at the Apprentice tier,
counts 3 and 7. -/
theorem pct_sv_monotone_within_table_witness :
    pct_sv_por_unidades Role.aprendiz 3 ≤ pct_sv_por_unidades Role.aprendiz 7 :=
  pct_sv_monotone_within_table .aprendiz 3 7 (by norm_num) (by norm_num)

/-- Every month number stored in the bilingual tables is positive. -/
theorem lookup_snd_mem :
    ∀ (l : List (String × ℤ)) (s : String) (m : ℤ), l.lookup s = some m →
      m ∈ l.map Prod.snd := by
  intro l s m h
  induction l with
  | nil => simp [List.lookup] at h
  | cons p rest ih =>
    obtain ⟨k, v⟩ := p
    simp only [List.lookup] at h
    rcases he : (s == k) with _ | _ <;> rw [he] at h
    · simpa using Or.inr (ih h)
    · simp only [Option.some.injEq] at h
      simpa using Or.inl h.symm

/-- The month-token lookup never yields 0 (so the Python truthiness test
`if m:` on a found month always passes). -/
theorem month_num_pos : ∀ (s : String) (m : ℤ), month_num s = some m → 0 < m := by
  intro s m h
  simp only [month_num, Option.orElse] at h
  rcases hEN : MONTH_MAP_EN.lookup s with _ | v <;> rw [hEN] at h
  · simp only at h
    have := lookup_snd_mem _ _ _ h
    simp [MONTH_MAP_ES] at this
    omega
  · simp only [Option.some.injEq] at h
    have := lookup_snd_mem _ _ _ hEN
    simp [MONTH_MAP_EN] at this
    omega

/-- The two-token branch in isolation: `none` exactly on an unparseable year
token or an unrecognized (lower-cased) month token, and the first day of the
recognized month and year otherwise. -/
theorem parse_periodo_tokens_cases :
    ∀ mes year : String,
      (int_of_string year = none → parse_periodo_tokens mes year = none) ∧
      (month_num (lower_string mes) = none → parse_periodo_tokens mes year = none) ∧
      (∀ y m : ℤ, int_of_string year = some y → month_num (lower_string mes) = some m →
        parse_periodo_tokens mes year = some ⟨y, m, 1⟩) := by
  refine fun mes year => ⟨fun hy => ?_, fun hm => ?_, fun y m hy hm => ?_⟩
  · simp [parse_periodo_tokens, hy]
  · rcases hY : int_of_string year with _ | y <;>
      simp [parse_periodo_tokens, hY, hm]
  · have hpos := month_num_pos _ _ hm
    simp [parse_periodo_tokens, hy, hm]
    omega

/-- C7 (counterexample): the claim fails on the program — the direct
`pd.to_datetime` parse of line 40 runs before the month tables are ever
consulted, so the two-token string "Jan 2024", whose month token is in
neither the English nor the Spanish table (the claim therefore demands
NONE), parses to January 1, 2024 through the fast path. -/
theorem parse_fast_path_preempts_tables :
    month_num (lower_string "Jan") = none ∧
    parse_periodo_to_date pd_to_datetime_model "Jan 2024" = some ⟨2024, 1, 1⟩ ∧
    parse_periodo_to_date pd_to_datetime_model "Jan 2024" ≠ none := by
  decide

/-- C7 (amended): the claimed two-token behavior holds on exactly the inputs
the direct-parse fast path rejects: for any fast-path oracle and any input it
maps to NaT whose normalized split has at least two tokens, the parser
returns `none` when the year token does not parse as a Python integer or the
lower-cased month token is in neither the English nor the bilingual Spanish
table (which includes "setiembre"), and the first day of that month of that
year when both are recognized; when the fast path succeeds, its month is
returned as a first-of-month date instead, preempting the tables. -/
theorem parse_periodo_to_date_spec :
    (∀ (td : String → Option (ℤ × ℤ)) (txt : String) (y m : ℤ),
      td (py_strip txt) = some (y, m) →
      parse_periodo_to_date td txt = some ⟨y, m, 1⟩) ∧
    (∀ (td : String → Option (ℤ × ℤ)) (txt : String) (mes year : String)
      (rest : List String),
      td (py_strip txt) = none →
      py_split (replace_seps (py_strip txt)) = mes :: year :: rest →
      ((int_of_string year = none → parse_periodo_to_date td txt = none) ∧
       (month_num (lower_string mes) = none → parse_periodo_to_date td txt = none) ∧
       (∀ y m : ℤ, int_of_string year = some y → month_num (lower_string mes) = some m →
        parse_periodo_to_date td txt = some ⟨y, m, 1⟩))) ∧
    parse_periodo_to_date pd_to_datetime_model "Setiembre 2024" = some ⟨2024, 9, 1⟩ ∧
    parse_periodo_to_date pd_to_datetime_model "SEPTIEMBRE 2024" = some ⟨2024, 9, 1⟩ ∧
    parse_periodo_to_date pd_to_datetime_model "Enero 20x4" = none ∧
    parse_periodo_to_date pd_to_datetime_model "Monthuary 2024" = none := by
  refine ⟨fun td txt y m h => ?_, fun td txt mes year rest h hsplit => ?_,
    by decide, by decide, by decide, by decide⟩
  · simp [parse_periodo_to_date, h]
  · have hred : parse_periodo_to_date td txt = parse_periodo_tokens mes year := by
      simp [parse_periodo_to_date, h, hsplit]
    rw [hred]
    exact parse_periodo_tokens_cases mes year

/-- C7 (witness): `parse_periodo_to_date_spec` applied to the fast-path hit
"January 2024", the fast-path miss "Enero 2024" (Spanish month, resolved by
the tables), and the unparseable year token "MMXXIV". -/
theorem parse_periodo_to_date_spec_witness :
    parse_periodo_to_date pd_to_datetime_model "January 2024" = some ⟨2024, 1, 1⟩ ∧
    parse_periodo_to_date pd_to_datetime_model "Enero 2024" = some ⟨2024, 1, 1⟩ ∧
    parse_periodo_to_date pd_to_datetime_model "Enero MMXXIV" = none :=
  ⟨parse_periodo_to_date_spec.1 pd_to_datetime_model "January 2024" 2024 1 (by decide),
    (parse_periodo_to_date_spec.2.1 pd_to_datetime_model "Enero 2024" "Enero" "2024" []
      (by decide) (by decide)).2.2 2024 1 (by decide) (by decide),
    (parse_periodo_to_date_spec.2.1 pd_to_datetime_model "Enero MMXXIV" "Enero" "MMXXIV" []
      (by decide) (by decide)).1 (by decide)⟩

end Viventa
